import Mathlib

/-!
Verification of the YouTube-summarizer pipeline (`src/main.py`).

The program is a linear call chain: parse a YouTube URL into a video
identifier with `extract_video_id`, fetch the transcript, join the
fragment texts, and summarize with `safe_summarize`; all failures are
converted into strings returned on the normal channel.

Strings are modelled as `List Char`.  The four regular expressions of
`extract_video_id` consist of optional literal alternatives
(`(?:https?:\/\/)?`, `(?:www\.)?`) followed by a fixed literal and a
single greedy capture group `([^&\s]+)` at the end of the pattern.
Expanding the optional groups yields, per pattern, a finite list of
plain string literals that are pairwise prefix-incompatible (any two
differ at an index both contain), so Python's backtracking order over
the alternatives is irrelevant: at a given start position at most one
expanded literal can match.  `re.search` is therefore modelled exactly
as: find the leftmost position where some expanded literal is a prefix
of the remaining input and is followed by at least one character that
is neither `&` nor whitespace; the captured group is the maximal such
run of characters.

External collaborators (the transcript API, with the tokenizer and
model of `facebook/bart-large-cnn`) are modelled as oracle functions
supplied in environment structures; an exception raised by a library
call is an `Except.error` carrying the exception message `str(e)`.
-/

deriving instance DecidableEq for Except

/-- Python's whitespace set for `str` (CPython's `Py_UNICODE_ISSPACE`):
`\x09`-`\x0d`, `\x1c`-`\x1f`, space, `\x85`, `\xa0` (no-break
space), `\u1680`, `\u2000`-`\u200a`, `\u2028`, `\u2029`, `\u202f`,
`\u205f` and `\u3000`.  This is the class `\s` matches in `str`
patterns and the set `str.strip()` removes. -/
def isPySpace (c : Char) : Bool :=
  c.toNat = 0x20 ||
  (0x09 ≤ c.toNat && c.toNat ≤ 0x0d) ||
  (0x1c ≤ c.toNat && c.toNat ≤ 0x1f) ||
  c.toNat = 0x85 || c.toNat = 0xa0 || c.toNat = 0x1680 ||
  (0x2000 ≤ c.toNat && c.toNat ≤ 0x200a) ||
  c.toNat = 0x2028 || c.toNat = 0x2029 ||
  c.toNat = 0x202f || c.toNat = 0x205f || c.toNat = 0x3000

/-- A character admissible inside a captured video identifier:
anything but `&` and whitespace (`[^&\s]`). -/
def isIdChar (c : Char) : Bool :=
  !(c = '&' || isPySpace c)

/-- Expanded literal alternatives of
`(?:https?:\/\/)?(?:www\.)?youtube\.com\/watch\?v=([^&\s]+)`. -/
def watchLits : List (List Char) :=
  [ "https://www.youtube.com/watch?v=".data,
   "https://youtube.com/watch?v=".data,
   "http://www.youtube.com/watch?v=".data,
   "http://youtube.com/watch?v=".data,
   "www.youtube.com/watch?v=".data,
   "youtube.com/watch?v=".data]

/-- Expanded literal alternatives of
`(?:https?:\/\/)?youtu\.be\/([^&\s]+)`. -/
def shortLits : List (List Char) :=
  [ "https://youtu.be/".data,
   "http://youtu.be/".data,
   "youtu.be/".data]

/-- Expanded literal alternatives of
`(?:https?:\/\/)?(?:www\.)?youtube\.com\/embed\/([^&\s]+)`. -/
def embedLits : List (List Char) :=
  [ "https://www.youtube.com/embed/".data,
   "https://youtube.com/embed/".data,
   "http://www.youtube.com/embed/".data,
   "http://youtube.com/embed/".data,
   "www.youtube.com/embed/".data,
   "youtube.com/embed/".data]

/-- Expanded literal alternatives of
`(?:https?:\/\/)?(?:www\.)?youtube\.com\/v\/([^&\s]+)`. -/
def vLits : List (List Char) :=
  [ "https://www.youtube.com/v/".data,
   "https://youtube.com/v/".data,
   "http://www.youtube.com/v/".data,
   "http://youtube.com/v/".data,
   "www.youtube.com/v/".data,
   "youtube.com/v/".data]

/-- Try to match one of the expanded literals of a pattern at the head
of `s`; on success return the capture of `([^&\s]+)`: the maximal
nonempty run of identifier characters following the literal. -/
def matchPatternAt (lits : List (List Char)) (s : List Char) :
    Option (List Char) :=
  match lits with
  | [] => none
  | l :: rest =>
    if l.isPrefixOf s then
      if (s.drop l.length).takeWhile isIdChar = [] then matchPatternAt rest s
      else some ((s.drop l.length).takeWhile isIdChar)
    else matchPatternAt rest s

/-- `re.search` for one pattern: scan start positions left to right and
return the capture at the first position where the pattern matches. -/
def searchPattern (lits : List (List Char)) : List Char → Option (List Char)
  | [] => none
  | c :: t =>
    match matchPatternAt lits (c :: t) with
    | some r => some r
    | none => searchPattern lits t

/-- The `patterns` list of `extract_video_id` (`src/main.py` lines 9-14),
each regex expanded into its literal alternatives. -/
def patterns : List (List (List Char)) :=
  [watchLits, shortLits, embedLits, vLits]

/-- The `for pattern in patterns` loop of `extract_video_id`: return the
first pattern's capture, else the `ValueError` message. -/
def findFirst (ps : List (List (List Char))) (s : List Char) :
    Except (List Char) (List Char) :=
  match ps with
  | [] => .error "Invalid YouTube URL".data
  | p :: rest =>
    match searchPattern p s with
    | some r => .ok r
    | none => findFirst rest s

/-- `extract_video_id` (`src/main.py` lines 7-21): try the four patterns
in order, return the first captured group; raise
`ValueError( "Invalid YouTube URL")` (modelled as `.error`) if none match. -/
def extract_video_id (youtube_url : List Char) : Except (List Char) (List Char) :=
  findFirst patterns youtube_url

/-- Python `str.strip()`: remove leading and trailing whitespace. -/
def pyStrip (s : List Char) : List Char :=
  ((s.dropWhile isPySpace).reverse.dropWhile isPySpace).reverse

/-- One transcript entry as used by the program: only the `'text'`
field of the caption dictionary is read (`entry['text']`). -/
structure Fragment where
  text : List Char
deriving DecidableEq

/-- The keyword arguments `summarize_youtube_video` passes to
`model.generate` (`src/main.py` lines 32-39); `length_penalty=2.0` is
modelled as the rational `2`. -/
structure GenParams where
  max_length : Nat
  min_length : Nat
  length_penalty : ℚ
  num_beams : Nat
  early_stopping : Bool

/-- Oracle behaviour of the loaded tokenizer and model inside
`safe_summarize`.  `tokenize text max_length truncation` models
`tokenizer(text, max_length=…, return_tensors="pt", truncation=…)`
returning the `input_ids` token list; `generate input_ids params`
models `model.generate`, returning candidate output token sequences;
`decode ids skip_special_tokens` models `tokenizer.decode`.  An
`Except.error` is a raised exception carrying `str(e)`. -/
structure SumEnv where
  tokenize : List Char → Nat → Bool → Except (List Char) (List Nat)
  generate : List Nat → GenParams → Except (List Char) (List (List Nat))
  decode : List Nat → Bool → Except (List Char) (List Char)

/-- The fixed string returned by `safe_summarize` when any exception is
caught (`src/main.py` line 46). -/
def errPlaceholder : List Char :=
  "Could not generate summary due to an error.".data

/-- `safe_summarize` (`src/main.py` lines 23-46): tokenize with a
1024-token truncation budget, generate with bounds
`max_length + 50` / `min_length`, `length_penalty=2.0`, `num_beams=4`,
`early_stopping=True`, take `summary_ids[0]` and decode it.  Any
exception in the `try` block — including the `IndexError` when
`generate` returns no sequence — yields the fixed placeholder string
(the error details are only printed, which is not modelled). -/
def safe_summarize (env : SumEnv) (text : List Char)
    (max_length min_length : Nat) : List Char :=
  match env.tokenize text 1024 true with
  | .error _ => errPlaceholder
  | .ok input_ids =>
    match env.generate input_ids ⟨max_length + 50, min_length, 2, 4, true⟩ with
    | .error _ => errPlaceholder
    | .ok summary_ids =>
      match summary_ids.head? with
      | none => errPlaceholder
      | some first =>
        match env.decode first true with
        | .error _ => errPlaceholder
        | .ok summary => summary

/-- Oracle behaviour of the external collaborators of
`summarize_youtube_video`: `loadModel` models
`AutoTokenizer.from_pretrained` / `AutoModelForSeq2SeqLM.from_pretrained`
(on success yielding the loaded model's behaviour, on failure a raised
exception), and `getTranscript` models
`YouTubeTranscriptApi.get_transcript(video_id)`. -/
structure PipeEnv where
  loadModel : Except (List Char) SumEnv
  getTranscript : List Char → Except (List Char) (List Fragment)

/-- `summarize_youtube_video` (`src/main.py` lines 48-89): load the
model, extract the video id, fetch the transcript (its own
`try/except` returning `"Error fetching transcript: …"`), return the
fixed message on an empty transcript list, join the fragment texts
with single spaces, return the fixed message when the joined text
strips to nothing, else summarize.  Any exception escaping to the
outer `try` — a model-loading failure or the `ValueError` of
`extract_video_id` — is returned as
`"An unexpected error occurred: " ++ str(e)`. -/
def summarize_youtube_video (env : PipeEnv) (youtube_url : List Char)
    (max_length min_length : Nat) : List Char :=
  match env.loadModel with
  | .error e => "An unexpected error occurred: ".data ++ e
  | .ok loaded =>
    match extract_video_id youtube_url with
    | .error e => "An unexpected error occurred: ".data ++ e
    | .ok video_id =>
      match env.getTranscript video_id with
      | .error e => "Error fetching transcript: ".data ++ e
      | .ok transcript =>
        if transcript = [] then
          "No transcript available for this video.".data
        else
          let full_text := List.intercalate [' '] (transcript.map Fragment.text)
          if pyStrip full_text = [] then
            "Empty transcript found.".data
          else
            safe_summarize loaded full_text max_length min_length

/-- The spec's description of the joined transcript text, written from
its words alone: "the fragment texts joined by single spaces in
original order" — the texts concatenated in list order with a single
space between consecutive fragments. -/
def specJoin : List (List Char) → List Char
  | [] => []
  | [t] => t
  | t :: u :: ts => t ++ ' ' :: specJoin (u :: ts)

/-- A model environment in which every library call raises. -/
def envAllFail : SumEnv :=
  ⟨fun _ _ _ => .error "tokenizer error".data,
   fun _ _ => .error "generation error".data,
   fun _ _ => .error "decoding error".data⟩

/-- A model environment in which no call raises and decoding happens to
produce exactly the placeholder text. -/
def envLiteralPlaceholder : SumEnv :=
  ⟨fun _ _ _ => .ok [0], fun _ _ => .ok [[0]],
   fun _ _ => .ok errPlaceholder⟩

/-- A model environment whose tokenizer truncates to the requested
budget and whose generation returns no sequence. -/
def envTruncOnly : SumEnv :=
  ⟨fun _ _ _ => .ok [], fun _ _ => .ok [], fun _ _ => .ok []⟩

/-- A pipeline environment with a working model and a fixed two-fragment
transcript for every video id. -/
def pipeEnvTwoFragments : PipeEnv :=
  ⟨.ok envAllFail,
   fun _ => .ok [⟨ "hello".data⟩, ⟨ "world".data⟩]⟩

/-- A pipeline environment whose transcript fetch always raises. -/
def pipeEnvFetchFails : PipeEnv :=
  ⟨.ok envAllFail, fun _ => .error "no captions".data⟩

/-- A pipeline environment that returns an empty transcript list. -/
def pipeEnvEmptyList : PipeEnv :=
  ⟨.ok envAllFail, fun _ => .ok []⟩

/-- A pipeline environment returning one fragment of pure whitespace. -/
def pipeEnvBlankFragment : PipeEnv :=
  ⟨.ok envAllFail, fun _ => .ok [⟨ "  ".data⟩]⟩

/-- A successful per-position match always captures a nonempty run of
identifier characters. -/
theorem matchPatternAt_sound (lits s r : _) (h : matchPatternAt lits s = some r) :
    r ≠ [] ∧ ∀ c ∈ r, isIdChar c = true := by
  induction lits with
  | nil => simp [matchPatternAt] at h
  | cons l rest ih =>
    simp only [matchPatternAt] at h
    split at h
    · split at h
      · exact ih h
      · rename_i hne
        cases h
        exact ⟨hne, fun c hc => List.mem_takeWhile_imp hc⟩
    · exact ih h

/-- A successful search always captures a nonempty run of identifier
characters. -/
theorem searchPattern_sound (lits s r : _) (h : searchPattern lits s = some r) :
    r ≠ [] ∧ ∀ c ∈ r, isIdChar c = true := by
  induction s with
  | nil => simp [searchPattern] at h
  | cons c t ih =>
    simp only [searchPattern] at h
    split at h
    · rename_i r' hr'
      cases h
      exact matchPatternAt_sound _ _ _ hr'
    · exact ih h

/-- A successful run of the pattern loop returns some pattern's capture. -/
theorem findFirst_sound (ps : List (List (List Char))) (s r : List Char)
    (h : findFirst ps s = .ok r) : ∃ p ∈ ps, searchPattern p s = some r := by
  induction ps with
  | nil => simp [findFirst] at h
  | cons p rest ih =>
    simp only [findFirst] at h
    split at h
    · rename_i r' hr'
      cases h
      exact ⟨p, by simp, hr'⟩
    · obtain ⟨q, hq, hsearch⟩ := ih h
      exact ⟨q, by simp [hq], hsearch⟩

/-- If the pattern matches at any start position, the left-to-right scan
succeeds. -/
theorem searchPattern_isSome_of_matchAt (lits s : _) (i : Nat)
    (h : (matchPatternAt lits (s.drop i)).isSome) :
    (searchPattern lits s).isSome := by
  induction s generalizing i with
  | nil =>
    rw [List.drop_nil] at h
    refine absurd h ?_
    clear h
    induction lits with
    | nil => simp [matchPatternAt]
    | cons l rest ih => simp [matchPatternAt, ih]
  | cons c t ih =>
    cases i with
    | zero =>
      rw [List.drop_zero] at h
      obtain ⟨r, hr⟩ := Option.isSome_iff_exists.mp h
      simp [searchPattern, hr]
    | succ j =>
      have ht := ih j (by simpa using h)
      cases hm : matchPatternAt lits (c :: t) with
      | some r => simp [searchPattern, hm]
      | none => simpa [searchPattern, hm] using ht

/-- If any member pattern's search succeeds, the loop returns `.ok`. -/
theorem findFirst_isOk_of_mem (ps : List (List (List Char))) (p s : _)
    (hp : p ∈ ps) (h : (searchPattern p s).isSome) :
    ∃ r, findFirst ps s = .ok r := by
  induction ps with
  | nil => simp at hp
  | cons q rest ih =>
    cases hq : searchPattern q s with
    | some r => exact ⟨r, by simp [findFirst, hq]⟩
    | none =>
      rcases List.mem_cons.mp hp with rfl | hmem
      · rw [hq] at h; simp at h
      · obtain ⟨r, hr⟩ := ih hmem
        exact ⟨r, by simp [findFirst, hq, hr]⟩

/-- C1: `extract_video_id` tries the four URL patterns (standard watch
URL, `youtu.be` short form, embed form, `/v/` form) in that fixed
order and returns the identifier captured by the first pattern that
matches; for inputs matching one of the shapes it returns that
pattern's captured identifier (in particular
`"https://youtu.be/J8O9_ugpDjE"` yields `"J8O9_ugpDjE"`), and for
every input matching none of the four shapes it fails with the
`"Invalid YouTube URL"` error. -/
theorem extract_video_id_first_match :
    extract_video_id "https://youtu.be/J8O9_ugpDjE".data = .ok "J8O9_ugpDjE".data ∧
    (∀ s, (∀ p ∈ patterns, searchPattern p s = none) →
      extract_video_id s = .error "Invalid YouTube URL".data) ∧
    (∀ s r, searchPattern watchLits s = some r → extract_video_id s = .ok r) ∧
    (∀ s r, searchPattern watchLits s = none →
      searchPattern shortLits s = some r → extract_video_id s = .ok r) ∧
    (∀ s r, searchPattern watchLits s = none → searchPattern shortLits s = none →
      searchPattern embedLits s = some r → extract_video_id s = .ok r) ∧
    (∀ s r, searchPattern watchLits s = none → searchPattern shortLits s = none →
      searchPattern embedLits s = none → searchPattern vLits s = some r →
      extract_video_id s = .ok r) := by
  refine ⟨by decide, ?_, ?_, ?_, ?_, ?_⟩
  · intro s h
    have h1 := h watchLits (by simp [patterns])
    have h2 := h shortLits (by simp [patterns])
    have h3 := h embedLits (by simp [patterns])
    have h4 := h vLits (by simp [patterns])
    simp [extract_video_id, patterns, findFirst, h1, h2, h3, h4]
  · intro s r h1
    simp [extract_video_id, patterns, findFirst, h1]
  · intro s r h1 h2
    simp [extract_video_id, patterns, findFirst, h1, h2]
  · intro s r h1 h2 h3
    simp [extract_video_id, patterns, findFirst, h1, h2, h3]
  · intro s r h1 h2 h3 h4
    simp [extract_video_id, patterns, findFirst, h1, h2, h3, h4]

/-- Witness for C1 at the short-form example URL: the first pattern
fails, the second matches and its capture is returned. -/
theorem extract_video_id_first_match_witness :
    extract_video_id "https://youtu.be/J8O9_ugpDjE".data = .ok "J8O9_ugpDjE".data :=
  extract_video_id_first_match.2.2.2.1 "https://youtu.be/J8O9_ugpDjE".data
    "J8O9_ugpDjE".data (by decide) (by decide)

/-- C8: matching is an unanchored substring search — if one of the four
URL shapes matches at any position of the input (even surrounded by
arbitrary other text), extraction succeeds with some captured
identifier instead of failing; concretely, arbitrary text around a
short-form URL still yields its identifier, so success does not imply
the whole input is a YouTube URL. -/
theorem extract_video_id_unanchored :
    (∀ s i p, p ∈ patterns → (matchPatternAt p (s.drop i)).isSome →
      ∃ r, extract_video_id s = .ok r) ∧
    extract_video_id "see https://youtu.be/abc123 now".data = .ok "abc123".data := by
  constructor
  · intro s i p hp h
    exact findFirst_isOk_of_mem patterns p s hp
      (searchPattern_isSome_of_matchAt p s i h)
  · decide

/-- Witness for C8: the short-form pattern matches at offset 4 of
`"see https://youtu.be/abc123 now"`, so extraction succeeds there. -/
theorem extract_video_id_unanchored_witness :
    ∃ r, extract_video_id "see https://youtu.be/abc123 now".data = .ok r :=
  extract_video_id_unanchored.1 "see https://youtu.be/abc123 now".data 4
    shortLits (by decide) (by decide)

/-- C9: whenever `extract_video_id` returns successfully, the returned
identifier is nonempty and contains neither `&` nor any whitespace
character, because every capture group in the four patterns is
`[^&\s]+`. -/
theorem extract_video_id_ok_shape (s r : List Char)
    (h : extract_video_id s = .ok r) :
    r ≠ [] ∧ ∀ c ∈ r, c ≠ '&' ∧ isPySpace c = false := by
  obtain ⟨p, _, hsearch⟩ := findFirst_sound patterns s r h
  obtain ⟨hne, hmem⟩ := searchPattern_sound p s r hsearch
  refine ⟨hne, fun c hc => ?_⟩
  have hid := hmem c hc
  simp only [isIdChar, Bool.not_eq_eq_eq_not, Bool.not_true,
    Bool.or_eq_false_iff, decide_eq_false_iff_not] at hid
  exact hid

/-- Witness for C9 at the watch-URL example: the identifier
`"dQw4w9WgXcQ"` is nonempty and free of `&` and whitespace. -/
theorem extract_video_id_ok_shape_witness :
    "dQw4w9WgXcQ".data ≠ [] ∧
      ∀ c ∈ "dQw4w9WgXcQ".data, c ≠ '&' ∧ isPySpace c = false :=
  extract_video_id_ok_shape "https://www.youtube.com/watch?v=dQw4w9WgXcQ".data
    "dQw4w9WgXcQ".data (by decide)

/-- The source's `' '.join` (modelled as `List.intercalate [' ']`)
coincides with the spec's description `specJoin`. -/
theorem intercalate_space_eq_specJoin (l : List (List Char)) :
    List.intercalate [' '] l = specJoin l := by
  induction l with
  | nil => simp [List.intercalate, specJoin]
  | cons t ts ih =>
    cases ts with
    | nil => simp [List.intercalate, specJoin]
    | cons u us =>
      rw [specJoin, ← ih]
      simp [List.intercalate, List.intersperse_cons_cons]

/-- Shared helper: when no pattern matches, `extract_video_id` raises
the `"Invalid YouTube URL"` error. -/
theorem extract_video_id_error_of_no_match (s : List Char)
    (h : ∀ p ∈ patterns, searchPattern p s = none) :
    extract_video_id s = .error "Invalid YouTube URL".data := by
  have h1 := h watchLits (by simp [patterns])
  have h2 := h shortLits (by simp [patterns])
  have h3 := h embedLits (by simp [patterns])
  have h4 := h vLits (by simp [patterns])
  simp [extract_video_id, patterns, findFirst, h1, h2, h3, h4]

/-- C2: on the success path (model loaded, identifier extracted,
non-empty transcript fetched, joined text not whitespace-only), the
text handed to the summarizer is exactly the fragments' `text` fields
concatenated in their original list order with a single space between
consecutive fragments. -/
theorem summarize_passes_joined_text (env : PipeEnv) (se : SumEnv)
    (url vid : List Char) (maxL minL : Nat) (ts : List Fragment)
    (hload : env.loadModel = .ok se)
    (hvid : extract_video_id url = .ok vid)
    (hts : env.getTranscript vid = .ok ts)
    (hne : ts ≠ [])
    (hstrip : pyStrip (List.intercalate [' '] (ts.map Fragment.text)) ≠ []) :
    summarize_youtube_video env url maxL minL
      = safe_summarize se (specJoin (ts.map Fragment.text)) maxL minL := by
  rw [← intercalate_space_eq_specJoin]
  simp [summarize_youtube_video, hload, hvid, hts, hne, hstrip]

/-- Witness for C2: a two-fragment transcript `[ "hello", "world"]` is
summarized on the joined text `"hello world"`. -/
theorem summarize_passes_joined_text_witness :
    summarize_youtube_video pipeEnvTwoFragments "https://youtu.be/abc".data 250 50
      = safe_summarize envAllFail
          (specJoin ([⟨ "hello".data⟩, ⟨ "world".data⟩].map Fragment.text)) 250 50 :=
  summarize_passes_joined_text pipeEnvTwoFragments envAllFail
    "https://youtu.be/abc".data "abc".data 250 50
    [⟨ "hello".data⟩, ⟨ "world".data⟩] rfl (by decide) rfl (by decide) (by decide)

/-- C3: when the identifier is extracted and the transcript fetch
returns an empty list, the pipeline returns exactly the literal
`"No transcript available for this video."`. -/
theorem summarize_empty_transcript_msg (env : PipeEnv) (se : SumEnv)
    (url vid : List Char) (maxL minL : Nat)
    (hload : env.loadModel = .ok se)
    (hvid : extract_video_id url = .ok vid)
    (hts : env.getTranscript vid = .ok []) :
    summarize_youtube_video env url maxL minL
      = "No transcript available for this video.".data := by
  simp [summarize_youtube_video, hload, hvid, hts]

/-- Witness for C3 at a concrete environment whose fetch returns `[]`. -/
theorem summarize_empty_transcript_msg_witness :
    summarize_youtube_video pipeEnvEmptyList "https://youtu.be/abc".data 250 50
      = "No transcript available for this video.".data :=
  summarize_empty_transcript_msg pipeEnvEmptyList envAllFail
    "https://youtu.be/abc".data "abc".data 250 50 rfl (by decide) rfl

/-- C4: when the transcript fetch raises, the exception is caught and
the pipeline returns (never raises) the string
`"Error fetching transcript: "` followed by the exception's message;
in the model the pipeline is a total function into strings, so the
fetch error cannot propagate as an exception. -/
theorem summarize_fetch_error_string (env : PipeEnv) (se : SumEnv)
    (url vid msg : List Char) (maxL minL : Nat)
    (hload : env.loadModel = .ok se)
    (hvid : extract_video_id url = .ok vid)
    (hts : env.getTranscript vid = .error msg) :
    summarize_youtube_video env url maxL minL
      = "Error fetching transcript: ".data ++ msg := by
  simp [summarize_youtube_video, hload, hvid, hts]

/-- Witness for C4 at a fetch that raises `"no captions"`. -/
theorem summarize_fetch_error_string_witness :
    summarize_youtube_video pipeEnvFetchFails "https://youtu.be/abc".data 250 50
      = "Error fetching transcript: ".data ++ "no captions".data :=
  summarize_fetch_error_string pipeEnvFetchFails envAllFail
    "https://youtu.be/abc".data "abc".data "no captions".data 250 50
    rfl (by decide) rfl

/-- C6: for an input matching none of the four URL shapes the pipeline
returns a string beginning with `"An unexpected error occurred"`
wrapping the internal exception's message: the `ValueError` of
`extract_video_id` is caught at the top level rather than escaping
(when model loading itself raises first, the same prefix wraps that
message instead); concretely
`extract_video_id "not a url"` fails with `"Invalid YouTube URL"`. -/
theorem summarize_invalid_url_unexpected_error :
    extract_video_id "not a url".data = .error "Invalid YouTube URL".data ∧
    (∀ env : PipeEnv, ∀ url : List Char, ∀ maxL minL : Nat,
      (∀ p ∈ patterns, searchPattern p url = none) →
      (∃ t, summarize_youtube_video env url maxL minL
          = "An unexpected error occurred: ".data ++ t) ∧
      (∀ se, env.loadModel = .ok se →
        summarize_youtube_video env url maxL minL
          = "An unexpected error occurred: Invalid YouTube URL".data)) := by
  refine ⟨by decide, ?_⟩
  intro env url maxL minL hno
  have hvid := extract_video_id_error_of_no_match url hno
  constructor
  · cases hload : env.loadModel with
    | error msg => exact ⟨msg, by simp [summarize_youtube_video, hload]⟩
    | ok se =>
      refine ⟨ "Invalid YouTube URL".data, ?_⟩
      simp [summarize_youtube_video, hload, hvid]
  · intro se hload
    simp [summarize_youtube_video, hload, hvid]

/-- Witness for C6 at the input `"not a url"`. -/
theorem summarize_invalid_url_unexpected_error_witness :
    ∃ t, summarize_youtube_video pipeEnvTwoFragments "not a url".data 250 50
        = "An unexpected error occurred: ".data ++ t :=
  (summarize_invalid_url_unexpected_error.2 pipeEnvTwoFragments
    "not a url".data 250 50 (by decide)).1

/-- C10: a transcript that is a non-empty list whose joined text strips
to nothing yields exactly `"Empty transcript found."` — a different
message from the empty-list case, because the empty-list check runs
first. -/
theorem summarize_blank_transcript_msg (env : PipeEnv) (se : SumEnv)
    (url vid : List Char) (maxL minL : Nat) (ts : List Fragment)
    (hload : env.loadModel = .ok se)
    (hvid : extract_video_id url = .ok vid)
    (hts : env.getTranscript vid = .ok ts)
    (hne : ts ≠ [])
    (hblank : pyStrip (List.intercalate [' '] (ts.map Fragment.text)) = []) :
    summarize_youtube_video env url maxL minL = "Empty transcript found.".data ∧
    "Empty transcript found.".data
      ≠ "No transcript available for this video.".data := by
  refine ⟨?_, by decide⟩
  simp [summarize_youtube_video, hload, hvid, hts, hne, hblank]

/-- Witness for C10 at a one-fragment transcript of pure whitespace. -/
theorem summarize_blank_transcript_msg_witness :
    summarize_youtube_video pipeEnvBlankFragment "https://youtu.be/abc".data 250 50
      = "Empty transcript found.".data ∧
    "Empty transcript found.".data
      ≠ "No transcript available for this video.".data :=
  summarize_blank_transcript_msg pipeEnvBlankFragment envAllFail
    "https://youtu.be/abc".data "abc".data 250 50 [⟨ "  ".data⟩]
    rfl (by decide) rfl (by decide) (by decide)

/-- C5: any exception raised inside `safe_summarize` — during
tokenization, generation, or decoding — yields the fixed placeholder
string `"Could not generate summary due to an error."` (details are
only printed); and a model that raises nothing can also produce
exactly that literal text, so the caller cannot distinguish the two
cases. -/
theorem safe_summarize_exception_placeholder :
    (∀ env : SumEnv, ∀ text : List Char, ∀ maxL minL : Nat, ∀ msg,
      env.tokenize text 1024 true = .error msg →
      safe_summarize env text maxL minL
        = "Could not generate summary due to an error.".data) ∧
    (∀ env : SumEnv, ∀ text : List Char, ∀ maxL minL : Nat, ∀ ids msg,
      env.tokenize text 1024 true = .ok ids →
      env.generate ids ⟨maxL + 50, minL, 2, 4, true⟩ = .error msg →
      safe_summarize env text maxL minL
        = "Could not generate summary due to an error.".data) ∧
    (∀ env : SumEnv, ∀ text : List Char, ∀ maxL minL : Nat,
      ∀ ids first rest msg,
      env.tokenize text 1024 true = .ok ids →
      env.generate ids ⟨maxL + 50, minL, 2, 4, true⟩ = .ok (first :: rest) →
      env.decode first true = .error msg →
      safe_summarize env text maxL minL
        = "Could not generate summary due to an error.".data) ∧
    ((∀ t n b, ∃ v, envLiteralPlaceholder.tokenize t n b = .ok v) ∧
     (∀ ids p, ∃ v, envLiteralPlaceholder.generate ids p = .ok v) ∧
     (∀ ids b, ∃ v, envLiteralPlaceholder.decode ids b = .ok v) ∧
     safe_summarize envLiteralPlaceholder "any text".data 250 50
       = "Could not generate summary due to an error.".data) := by
  refine ⟨?_, ?_, ?_, ?_, ?_, ?_, by decide⟩
  · intro env text maxL minL msg h
    simp [safe_summarize, errPlaceholder, h]
  · intro env text maxL minL ids msg h1 h2
    simp [safe_summarize, errPlaceholder, h1, h2]
  · intro env text maxL minL ids first rest msg h1 h2 h3
    simp [safe_summarize, errPlaceholder, h1, h2, h3]
  · intro t n b
    exact ⟨[0], rfl⟩
  · intro ids p
    exact ⟨[[0]], rfl⟩
  · intro ids b
    exact ⟨errPlaceholder, rfl⟩

/-- Witness for C5: with the all-raising model environment the result
is the placeholder. -/
theorem safe_summarize_exception_placeholder_witness :
    safe_summarize envAllFail "hi".data 250 50
      = "Could not generate summary due to an error.".data :=
  safe_summarize_exception_placeholder.1 envAllFail "hi".data 250 50
    "tokenizer error".data rfl

/-- C7: `safe_summarize` always terminates with a string: the
tokenization call uses the fixed 1024-token truncation budget (so any
tokenizer honouring truncation returns at most 1024 tokens), the
generation call uses the upper bound `max_length + 50` (so any
generator honouring its bound returns sequences of at most
`max_length + 50` tokens, however large `min_length` is), and these
are exactly the calls `safe_summarize` makes: when all three succeed
the decoded first sequence is the result. -/
theorem safe_summarize_bounded_terminates (env : SumEnv) (text : List Char)
    (maxL minL : Nat)
    (htok : ∀ t b ids, env.tokenize t b true = .ok ids → ids.length ≤ b)
    (hgen : ∀ ids p out, env.generate ids p = .ok out →
      ∀ o ∈ out, o.length ≤ p.max_length) :
    (∃ r : List Char, safe_summarize env text maxL minL = r) ∧
    (∀ ids, env.tokenize text 1024 true = .ok ids → ids.length ≤ 1024) ∧
    (∀ ids out, env.tokenize text 1024 true = .ok ids →
      env.generate ids ⟨maxL + 50, minL, 2, 4, true⟩ = .ok out →
      ∀ o ∈ out, o.length ≤ maxL + 50) ∧
    (∀ ids first rest s, env.tokenize text 1024 true = .ok ids →
      env.generate ids ⟨maxL + 50, minL, 2, 4, true⟩ = .ok (first :: rest) →
      env.decode first true = .ok s →
      safe_summarize env text maxL minL = s) := by
  refine ⟨⟨_, rfl⟩, fun ids h => htok _ _ _ h,
    fun ids out h1 h2 => hgen _ _ _ h2, ?_⟩
  intro ids first rest s h1 h2 h3
  simp [safe_summarize, h1, h2, h3]

/-- Witness for C7 with a min_length (800) far above anything the
generator could produce: `safe_summarize` still returns a value. -/
theorem safe_summarize_bounded_terminates_witness :
    ∃ r : List Char, safe_summarize envTruncOnly "hi".data 250 800 = r :=
  (safe_summarize_bounded_terminates envTruncOnly "hi".data 250 800
    (fun t b ids h => by
      obtain rfl : ([] : List Nat) = ids := Except.ok.inj h
      simp)
    (fun ids p out h => by
      obtain rfl : ([] : List (List Nat)) = out := Except.ok.inj h
      intro o ho
      simp at ho)).1
